import Mathlib

/-!
Verification development for the gesture-controlled 3D holiday scene
(`src/App.tsx`).  The data model and the operations below are shallow
embeddings of the TypeScript source: pure geometry and classification code
become Lean functions over `ℚ`/`ℝ`, the mutable refs of the React component
become an explicit state record threaded through per-frame processing
functions, and the timer-driven capture sequence becomes an explicit event
schedule.
-/

/-! ## Basic enumerations (src/types and src/App.tsx) -/

/-- GestureType from src (unnamed types file): discrete per-frame hand gesture. -/
inductive Gesture
  | NONE | PINCH | FIST | L_SHAPE | OPEN_PALM | THUMBS_UP
deriving DecidableEq

/-- AppMode from src (unnamed types file). -/
inductive AppMode
  | LOADING | SCATTER | TREE | TEXT
deriving DecidableEq

/-- CaptureState, App.tsx line 151. -/
inductive CaptureState
  | IDLE | COUNTDOWN | FLASH | DEVELOPING | FLYING
deriving DecidableEq

/-- ParticleType from src (unnamed types file); only the constructors the
scene actually creates are retained. -/
inductive ParticleType
  | ORNAMENT | STAR_ORNAMENT | LIGHT | PHOTO
deriving DecidableEq

/-! ## Landmarks and the gesture classifier (App.tsx lines 598-629)

A hand-landmark point has normalized `x`, `y` coordinates.  The classifier
only reads the twelve landmarks named below (`l[0]`, `l[2]`..`l[5]`, `l[8]`,
`l[9]`, `l[12]`, `l[13]`, `l[16]`, `l[17]`, `l[20]`).  Coordinates are
modelled as rationals so that concrete inputs can be evaluated; the
distances (`Math.hypot`) are real square roots, with decidability of each
comparison supplied through the equivalent squared rational comparison. -/

structure Pt where
  x : ℚ
  y : ℚ
deriving DecidableEq

/-- The landmarks the classifier reads.  Field names record the MediaPipe
index used in the source. -/
structure Landmarks where
  wrist : Pt      -- l[0]
  thumbMCP : Pt   -- l[2]
  thumbIP : Pt    -- l[3]
  thumbTip : Pt   -- l[4]
  indexMCP : Pt   -- l[5]
  indexTip : Pt   -- l[8]
  middleMCP : Pt  -- l[9]
  middleTip : Pt  -- l[12]
  ringMCP : Pt    -- l[13]
  ringTip : Pt    -- l[16]
  pinkyMCP : Pt   -- l[17]
  pinkyTip : Pt   -- l[20]
deriving DecidableEq

/-- Math.hypot on rational components. -/
noncomputable def hypot (dx dy : ℚ) : ℝ :=
  Real.sqrt (((dx ^ 2 + dy ^ 2 : ℚ) : ℝ))

theorem hypot_gt_mul_iff (a b c d k : ℚ) (hk : (0 : ℚ) ≤ k) :
    hypot c d * ((k : ℚ) : ℝ) < hypot a b ↔
      (c ^ 2 + d ^ 2) * k ^ 2 < a ^ 2 + b ^ 2 := by
  have hcd : (0 : ℝ) ≤ ((c ^ 2 + d ^ 2 : ℚ) : ℝ) := by positivity
  have hkr : (0 : ℝ) ≤ ((k : ℚ) : ℝ) := by exact_mod_cast hk
  have h1 : hypot c d * ((k : ℚ) : ℝ)
      = Real.sqrt (((c ^ 2 + d ^ 2) * k ^ 2 : ℚ) : ℝ) := by
    unfold hypot
    push_cast
    rw [Real.sqrt_mul (by positivity : (0 : ℝ) ≤ (c : ℝ) ^ 2 + (d : ℝ) ^ 2),
      Real.sqrt_sq hkr]
  rw [h1]
  unfold hypot
  rw [Real.sqrt_lt_sqrt_iff (by positivity)]
  exact Rat.cast_lt

theorem hypot_lt_iff (a b c : ℚ) (hc : (0 : ℚ) < c) :
    hypot a b < ((c : ℚ) : ℝ) ↔ a ^ 2 + b ^ 2 < c ^ 2 := by
  have hcr : (0 : ℝ) < ((c : ℚ) : ℝ) := by exact_mod_cast hc
  unfold hypot
  rw [show ((c : ℚ) : ℝ) = Real.sqrt (((c : ℚ) : ℝ) ^ 2) from
    (Real.sqrt_sq hcr.le).symm]
  rw [Real.sqrt_lt_sqrt_iff (by positivity)]
  rw [show (((c : ℚ) : ℝ)) ^ 2 = ((c ^ 2 : ℚ) : ℝ) by push_cast; ring]
  exact Rat.cast_lt

/-- Per-finger extension test `isEx` (App.tsx lines 603-607): fingertip to
wrist distance exceeds 1.1 times the MCP to wrist distance. -/
def isEx (wrist tip mcp : Pt) : Prop :=
  hypot (mcp.x - wrist.x) (mcp.y - wrist.y) * ((1.1 : ℚ) : ℝ) <
    hypot (tip.x - wrist.x) (tip.y - wrist.y)

instance (wrist tip mcp : Pt) : Decidable (isEx wrist tip mcp) :=
  decidable_of_iff
    (((mcp.x - wrist.x) ^ 2 + (mcp.y - wrist.y) ^ 2) * (1.1 : ℚ) ^ 2 <
      (tip.x - wrist.x) ^ 2 + (tip.y - wrist.y) ^ 2)
    (hypot_gt_mul_iff _ _ _ _ _ (by norm_num)).symm

/-- `iE` (App.tsx line 609). -/
def iE (l : Landmarks) : Prop := isEx l.wrist l.indexTip l.indexMCP

instance (l : Landmarks) : Decidable (iE l) := by unfold iE; infer_instance

/-- `mE` (App.tsx line 609). -/
def mE (l : Landmarks) : Prop := isEx l.wrist l.middleTip l.middleMCP

instance (l : Landmarks) : Decidable (mE l) := by unfold mE; infer_instance

/-- `rE` (App.tsx line 609). -/
def rE (l : Landmarks) : Prop := isEx l.wrist l.ringTip l.ringMCP

instance (l : Landmarks) : Decidable (rE l) := by unfold rE; infer_instance

/-- `pE` (App.tsx line 609). -/
def pE (l : Landmarks) : Prop := isEx l.wrist l.pinkyTip l.pinkyMCP

instance (l : Landmarks) : Decidable (pE l) := by unfold pE; infer_instance

/-- Strict thumb-extension test `tE` for thumbs-up (App.tsx line 612),
ratio 1.2 against the thumb IP joint (`l[3]`). -/
def tE (l : Landmarks) : Prop :=
  hypot (l.thumbIP.x - l.wrist.x) (l.thumbIP.y - l.wrist.y) * ((1.2 : ℚ) : ℝ) <
    hypot (l.thumbTip.x - l.wrist.x) (l.thumbTip.y - l.wrist.y)

instance (l : Landmarks) : Decidable (tE l) :=
  decidable_of_iff
    (((l.thumbIP.x - l.wrist.x) ^ 2 + (l.thumbIP.y - l.wrist.y) ^ 2) * (1.2 : ℚ) ^ 2 <
      (l.thumbTip.x - l.wrist.x) ^ 2 + (l.thumbTip.y - l.wrist.y) ^ 2)
    (hypot_gt_mul_iff _ _ _ _ _ (by norm_num)).symm

/-- Loose legacy thumb-extension test `tE_Legacy` feeding L-shape
(App.tsx line 615), ratio 1.05. -/
def tE_Legacy (l : Landmarks) : Prop :=
  hypot (l.thumbIP.x - l.wrist.x) (l.thumbIP.y - l.wrist.y) * ((1.05 : ℚ) : ℝ) <
    hypot (l.thumbTip.x - l.wrist.x) (l.thumbTip.y - l.wrist.y)

instance (l : Landmarks) : Decidable (tE_Legacy l) :=
  decidable_of_iff
    (((l.thumbIP.x - l.wrist.x) ^ 2 + (l.thumbIP.y - l.wrist.y) ^ 2) * (1.05 : ℚ) ^ 2 <
      (l.thumbTip.x - l.wrist.x) ^ 2 + (l.thumbTip.y - l.wrist.y) ^ 2)
    (hypot_gt_mul_iff _ _ _ _ _ (by norm_num)).symm

/-- `pinchDist` (App.tsx line 617): thumb-tip to index-tip distance. -/
noncomputable def pinchDist (l : Landmarks) : ℝ :=
  hypot (l.thumbTip.x - l.indexTip.x) (l.thumbTip.y - l.indexTip.y)

/-- `thumbPointingUp` (App.tsx line 622): `tTip.y < tIP.y && tIP.y < tMCP.y`
(y increases downwards). -/
def thumbPointingUp (l : Landmarks) : Prop :=
  l.thumbTip.y < l.thumbIP.y ∧ l.thumbIP.y < l.thumbMCP.y

instance (l : Landmarks) : Decidable (thumbPointingUp l) :=
  instDecidableAnd

/-- `fingersCurled` (App.tsx line 623). -/
def fingersCurled (l : Landmarks) : Prop :=
  ¬ iE l ∧ ¬ mE l ∧ ¬ rE l ∧ ¬ pE l

instance (l : Landmarks) : Decidable (fingersCurled l) := by
  unfold fingersCurled; infer_instance

/-- PINCH rule condition (App.tsx line 625). -/
def pinchCond (l : Landmarks) : Prop :=
  pinchDist l < ((0.06 : ℚ) : ℝ) ∧ mE l ∧ rE l ∧ pE l

instance (l : Landmarks) : Decidable (pinchCond l) := by
  unfold pinchCond pinchDist
  have : Decidable (hypot (l.thumbTip.x - l.indexTip.x) (l.thumbTip.y - l.indexTip.y)
      < ((0.06 : ℚ) : ℝ)) :=
    decidable_of_iff
      ((l.thumbTip.x - l.indexTip.x) ^ 2 + (l.thumbTip.y - l.indexTip.y) ^ 2 <
        (0.06 : ℚ) ^ 2)
      (hypot_lt_iff _ _ _ (by norm_num)).symm
  infer_instance

/-- THUMBS_UP rule condition (App.tsx line 626). -/
def thumbsUpCond (l : Landmarks) : Prop :=
  fingersCurled l ∧ tE l ∧ thumbPointingUp l

instance (l : Landmarks) : Decidable (thumbsUpCond l) := by
  unfold thumbsUpCond; infer_instance

/-- FIST rule condition (App.tsx line 627): all four fingers curled,
re-checked inline in the source (`!iE && !mE && !rE && !pE`). -/
def fistCond (l : Landmarks) : Prop :=
  ¬ iE l ∧ ¬ mE l ∧ ¬ rE l ∧ ¬ pE l

instance (l : Landmarks) : Decidable (fistCond l) := by
  unfold fistCond; infer_instance

/-- OPEN_PALM rule condition (App.tsx line 628). -/
def openPalmCond (l : Landmarks) : Prop :=
  iE l ∧ mE l ∧ rE l ∧ pE l

instance (l : Landmarks) : Decidable (openPalmCond l) := by
  unfold openPalmCond; infer_instance

/-- L_SHAPE rule condition (App.tsx line 629). -/
def lShapeCond (l : Landmarks) : Prop :=
  tE_Legacy l ∧ iE l ∧ ¬ pE l

instance (l : Landmarks) : Decidable (lShapeCond l) := by
  unfold lShapeCond; infer_instance

/-- Gesture classifier: the priority-ordered if/else chain of
App.tsx lines 618-629, first match wins. -/
def classifyGesture (l : Landmarks) : Gesture :=
  if pinchCond l then .PINCH
  else if thumbsUpCond l then .THUMBS_UP
  else if fistCond l then .FIST
  else if openPalmCond l then .OPEN_PALM
  else if lShapeCond l then .L_SHAPE
  else .NONE

/-! ## Application state and per-frame processing (App.tsx lines 153-672)

The component's mutable refs and React state cells relevant to the Mode
State Machine, the hold counters, the zoom/preview locks and the Capture
State Machine are gathered into one record.  Times are milliseconds as
natural numbers (`Date.now()`); `now - lastCaptureTime` uses truncated
subtraction, which agrees with the source's comparison against a
non-negative bound. -/

/-- One scene particle, reduced to the fields the verified claims read.
The three formation targets are modelled separately (see the Formation
Generator section). -/
structure Particle where
  ptype : ParticleType
  isPhoto : Bool
  /-- whether the video frame was composited onto the polaroid texture
  (App.tsx line 251: drawn only when `vid.readyState >= 2`). -/
  imageDrawn : Bool
deriving DecidableEq

/-- The refs/state cells of the component that the claims are about. -/
structure AppState where
  mode : AppMode                 -- modeRef / appMode
  captureState : CaptureState    -- captureStateRef / captureState
  countdown : Option ℕ           -- countdown
  camMessage : String            -- camMessage
  currentGesture : Gesture       -- gestureRef / currentGesture
  lShapeHold : ℕ                 -- lShapeHoldTimeRef
  pinchHold : ℕ                  -- pinchHoldTimeRef
  zoomedPhoto : Option ℕ         -- zoomedPhotoRef (index into particles)
  previewingPhoto : Option ℕ     -- previewingPhotoRef (index into particles)
  particles : List Particle      -- particlesRef
  lastCaptureTime : ℕ            -- lastCaptureTimeRef
  holdBarPct : ℚ                 -- holdBarRef.style.width (percent)
deriving DecidableEq

instance : Inhabited Particle := ⟨⟨.ORNAMENT, false, false⟩⟩

/-- `triggerCountdown` (App.tsx lines 209-216): only from IDLE and only
when at least 4000 ms have passed since the last capture. -/
def triggerCountdown (now : ℕ) (s : AppState) : AppState :=
  if s.captureState ≠ .IDLE then s
  else if now - s.lastCaptureTime < 4000 then s
  else { s with captureState := .COUNTDOWN, countdown := some 3,
                camMessage := "SMILE!" }

/-- Gesture dispatch of the prediction loop (App.tsx lines 631-664), run
when a hand was detected and classified as `gest`.  `r` models the
`Math.random()` draw used to pick a photo to zoom. -/
def processHand (now r : ℕ) (gest : Gesture) (s : AppState) : AppState :=
  let s0 := { s with currentGesture := gest }
  if gest = .OPEN_PALM then
    { s0 with pinchHold := 0, mode := .SCATTER, zoomedPhoto := none }
  else if gest = .FIST then
    { s0 with pinchHold := 0, mode := .TREE, zoomedPhoto := none }
  else if gest = .THUMBS_UP then
    { s0 with pinchHold := 0, mode := .TEXT, zoomedPhoto := none }
  else if gest = .PINCH then
    let s1 := { s0 with pinchHold := s0.pinchHold + 1 }
    if 15 < s1.pinchHold ∧ s1.zoomedPhoto = none then
      let phs := (List.range s1.particles.length).filter
        (fun i => (s1.particles.getD i default).isPhoto)
      if phs.length ≠ 0 then
        { s1 with zoomedPhoto := some (phs.getD (r % phs.length) 0) }
      else s1
    else s1
  else if gest = .L_SHAPE then
    let s1 := { s0 with pinchHold := 0, camMessage := "HOLD STEADY...",
                        lShapeHold := s0.lShapeHold + 1 }
    let s2 := if 30 < s1.lShapeHold then triggerCountdown now s1 else s1
    { s2 with holdBarPct := min ((s1.lShapeHold : ℚ) / 30 * 100) 100 }
  else
    { s0 with lShapeHold := 0, pinchHold := 0, holdBarPct := 0,
              camMessage := "NOEL ELEGANCE" }

/-- One iteration of `predictLoop` (App.tsx lines 583-672) as far as it
touches the modelled state: the frame is skipped while the Capture State
Machine is not IDLE or within 2000 ms of the last capture (lines 592-595);
otherwise a detected hand is dispatched on its classified gesture
(lines 598-664) and a frame with no hand only resets the displayed gesture
and the hold bar (lines 665-668). -/
def processFrame (now r : ℕ) (hand : Option Gesture) (s : AppState) : AppState :=
  if s.captureState ≠ .IDLE ∨ now - s.lastCaptureTime < 2000 then s
  else
    match hand with
    | some gest => processHand now r gest s
    | none => { s with currentGesture := .NONE, holdBarPct := 0 }

/-! ## Photo capture pipeline (App.tsx lines 229-358) -/

/-- The video element, reduced to its readiness state
(`vid.readyState >= 2` means a current frame is available). -/
structure VideoElem where
  readyState : ℕ
deriving DecidableEq

/-- The external refs `takePhoto` requires (App.tsx line 230). -/
structure CaptureEnv where
  mainGroup : Option Unit   -- mainGroupRef.current
  camera : Option Unit      -- cameraRef.current
  video : Option VideoElem  -- videoRef.current
deriving DecidableEq

/-- Synchronous part of `takePhoto` (App.tsx lines 229-332): no-ops when
any of the three refs is missing; otherwise enters FLASH, builds the
polaroid (compositing the video frame only when `readyState >= 2`),
appends the new photo particle and preview-locks it.  The timer-driven
FLASH/DEVELOPING/FLYING/IDLE phases are modelled by `captureStateAt`. -/
def takePhoto (env : CaptureEnv) (s : AppState) : AppState :=
  match env.mainGroup, env.camera, env.video with
  | some _, some _, some vid =>
    let newP : Particle :=
      { ptype := .PHOTO, isPhoto := true, imageDrawn := 2 ≤ vid.readyState }
    { s with captureState := .FLASH, countdown := none, camMessage := "",
             particles := s.particles ++ [newP],
             previewingPhoto := some s.particles.length }
  | _, _, _ => s

/-- Timers scheduled by `takePhoto` relative to the moment the photo is
taken: `setTimeout(…,150)` enters DEVELOPING (line 335-338),
`setTimeout(…,4500)` enters FLYING (lines 340-357), and a nested
`setTimeout(…,1000)` returns to IDLE (lines 353-355). -/
def captureTimers : List (ℕ × CaptureState) :=
  [(150, .DEVELOPING), (4500, .FLYING), (4500 + 1000, .IDLE)]

/-- Capture state `t` milliseconds after the photo is taken: the state set
by the latest timer already fired, FLASH (set synchronously) before any. -/
def captureStateAt (t : ℕ) : CaptureState :=
  (captureTimers.filter (fun e => e.1 ≤ t)).foldl (fun _ e => e.2) .FLASH

/-! ## Formation Generator: tree targets (App.tsx lines 14-15, 315-320, 488-490) -/

/-- TREE_HEIGHT (App.tsx line 14). -/
def TREE_HEIGHT : ℝ := 55

/-- TREE_BASE_RADIUS (App.tsx line 15). -/
def TREE_BASE_RADIUS : ℝ := 22

/-- A 3D point of a formation, real-valued. -/
structure RVec3 where
  x : ℝ
  y : ℝ
  z : ℝ

/-- The cone's radius profile at height `y` (the `mR` /
`maxRadiusAtHeight` expression shared by all tree-target generators). -/
noncomputable def radiusProfile (y : ℝ) : ℝ :=
  (1 - (y + TREE_HEIGHT / 2) / TREE_HEIGHT) * TREE_BASE_RADIUS

/-- Tree target of one ornament-loop particle (App.tsx lines 488-490).
The five arguments are the successive `Math.random()` draws: `r` biases
the height (`Math.pow(r, 0.9)`), `a1`,`r1` give the azimuth and radial
fraction of the x coordinate, `a2`,`r2` those of the z coordinate — the
source draws a fresh random angle and a fresh random radius for each of
the two coordinates. -/
noncomputable def treeTargetOrnament (r a1 r1 a2 r2 : ℝ) : RVec3 :=
  let hN := r ^ (0.9 : ℝ)
  let y := hN * TREE_HEIGHT - TREE_HEIGHT / 2
  let mR := TREE_BASE_RADIUS * (1 - (y + TREE_HEIGHT / 2) / TREE_HEIGHT)
  ⟨Real.cos (a1 * 6.28) * mR * (0.2 + 0.8 * Real.sqrt r1), y,
   Real.sin (a2 * 6.28) * mR * (0.2 + 0.8 * Real.sqrt r2)⟩

/-- Tree target of a captured photo particle (App.tsx lines 315-320).
`u1`, `u2`, `u3` are the successive `Math.random()` draws for the height,
the radial fraction and the (single) azimuth. -/
noncomputable def treeTargetPhoto (u1 u2 u3 : ℝ) : RVec3 :=
  let normalizedHeight := u1 * 0.9 - 0.45
  let h := normalizedHeight * TREE_HEIGHT
  let maxRadiusAtHeight := (1 - (h + TREE_HEIGHT / 2) / TREE_HEIGHT) * TREE_BASE_RADIUS
  let radius := maxRadiusAtHeight * (0.4 + u2 * 0.7) + 1.0
  let angle := u3 * 6.28
  ⟨Real.cos angle * radius, h, Real.sin angle * radius⟩

/-! ## Text-glyph generation and allocation (App.tsx lines 10-13, 66-108,
390-398, 442-445) -/

/-- PARTICLE_COUNT (App.tsx line 10). -/
def PARTICLE_COUNT : ℕ := 600

/-- LIGHT_PARTICLE_COUNT (App.tsx line 12). -/
def LIGHT_PARTICLE_COUNT : ℕ := 600

/-- SMALL_STAR_COUNT (App.tsx line 13). -/
def SMALL_STAR_COUNT : ℕ := 150

/-- `totalParticles` (App.tsx line 391). -/
def totalParticles : ℕ :=
  PARTICLE_COUNT + LIGHT_PARTICLE_COUNT + SMALL_STAR_COUNT + 1

/-- Number of particles pushed during scene construction: the topper
(line 451), the fairy-light loop (lines 454-465), the small-star loop
(lines 469-478) and the ornament loop (lines 480-495), each pushing one
particle per iteration with one `getNextTextPos()` call. -/
def initialCreations : ℕ :=
  1 + LIGHT_PARTICLE_COUNT + SMALL_STAR_COUNT + PARTICLE_COUNT

/-- A text-target point; rational-valued (canvas-pixel arithmetic). -/
structure Vec3 where
  x : ℚ
  y : ℚ
  z : ℚ
deriving DecidableEq

instance : Inhabited Vec3 := ⟨⟨0, 0, 0⟩⟩

/-- One opaque pixel found by the canvas scan in `getVavePoints`. -/
structure Pixel where
  x : ℚ
  y : ℚ
deriving DecidableEq

/-- `getVavePoints` (App.tsx lines 67-108).  The canvas rendering and the
alpha scan are external; `validPixels` is the list of opaque pixels the
scan produced, `pick i` the `Math.random()` pixel choice of iteration `i`
and `depth i` the random depth jitter `(Math.random()-0.5)*6`.  When no
context or no opaque pixels are available the source returns
`Array(count).fill(new THREE.Vector3())` (lines 71, 93); otherwise it
pushes `count` mapped pixels (lines 95-107, scale 0.5, lift 5). -/
def getVavePoints (count : ℕ) (validPixels : List Pixel)
    (pick : ℕ → ℕ) (depth : ℕ → ℚ) : List Vec3 :=
  if validPixels.isEmpty then List.replicate count ⟨0, 0, 0⟩
  else
    (List.range count).map (fun i =>
      let p := validPixels.getD (pick i % validPixels.length) ⟨0, 0⟩
      ⟨(p.x - 150) * 0.5, -(p.y - 60) * 0.5 + 5, depth i⟩)

/-- Array-element swap used by the shuffle. -/
def listSwap (l : List Vec3) (i j : ℕ) : List Vec3 :=
  (l.set i (l.getD j default)).set j (l.getD i default)

/-- Fisher-Yates shuffle of the text points (App.tsx lines 394-397):
`i` runs from `length - 1` down to `1`, and `jf i` models the
`Math.random()` draw whose floor against `i + 1` picks the swap partner. -/
def fisherYates (l : List Vec3) (jf : ℕ → ℕ) : List Vec3 :=
  (List.range (l.length - 1)).foldl
    (fun acc k =>
      let i := l.length - 1 - k
      listSwap acc i (jf i % (i + 1)))
    l

/-- `getNextTextPos` (App.tsx lines 442-445): hands out the point at the
advancing index while any remain, and falls back to the origin (without
advancing) once the list is exhausted. -/
def getNextTextPos (points : List Vec3) (idx : ℕ) : Vec3 × ℕ :=
  if idx < points.length then (points.getD idx default, idx + 1)
  else (⟨0, 0, 0⟩, idx)

/-- `n` successive `getNextTextPos` calls starting at index `idx`:
the handed-out points and the final index. -/
def allocRun (points : List Vec3) : ℕ → ℕ → List Vec3 × ℕ
  | idx, 0 => ([], idx)
  | idx, n + 1 =>
    let r := getNextTextPos points idx
    let rest := allocRun points r.2 n
    (r.1 :: rest.1, rest.2)

/-- Whether any of `n` successive `getNextTextPos` calls starting at `idx`
takes the degenerate origin branch. -/
def allocRunHitsFallback (points : List Vec3) : ℕ → ℕ → Bool
  | _, 0 => false
  | idx, n + 1 =>
    if idx < points.length then allocRunHitsFallback points (idx + 1) n
    else true

/-! ## Shared concrete states for witnesses and counterexamples -/

/-- A quiescent state: IDLE, counters zero, no photos, no locks. -/
def idleState : AppState :=
  { mode := .TREE, captureState := .IDLE, countdown := none,
    camMessage := "NOEL ELEGANCE", currentGesture := .NONE, lShapeHold := 0,
    pinchHold := 0, zoomedPhoto := none, previewingPhoto := none,
    particles := [], lastCaptureTime := 0, holdBarPct := 0 }

/-! ## Claims about the Mode State Machine -/

/-- C1 (amended): a mode transition on OPEN_PALM, FIST or THUMBS_UP sets the
corresponding mode, resets the pinch hold counter to zero and clears any
zoomed-photo lock — but leaves the L-shape hold counter unchanged. -/
theorem c1_mode_transition_resets (now r : ℕ) (s : AppState) :
    ((processHand now r .OPEN_PALM s).mode = .SCATTER ∧
      (processHand now r .OPEN_PALM s).pinchHold = 0 ∧
      (processHand now r .OPEN_PALM s).zoomedPhoto = none ∧
      (processHand now r .OPEN_PALM s).lShapeHold = s.lShapeHold) ∧
    ((processHand now r .FIST s).mode = .TREE ∧
      (processHand now r .FIST s).pinchHold = 0 ∧
      (processHand now r .FIST s).zoomedPhoto = none ∧
      (processHand now r .FIST s).lShapeHold = s.lShapeHold) ∧
    ((processHand now r .THUMBS_UP s).mode = .TEXT ∧
      (processHand now r .THUMBS_UP s).pinchHold = 0 ∧
      (processHand now r .THUMBS_UP s).zoomedPhoto = none ∧
      (processHand now r .THUMBS_UP s).lShapeHold = s.lShapeHold) :=
  ⟨⟨rfl, rfl, rfl, rfl⟩, ⟨rfl, rfl, rfl, rfl⟩, ⟨rfl, rfl, rfl, rfl⟩⟩

/-- C1 (counterexample to the claim as stated): a frame taking the
OPEN_PALM → SCATTER transition from a state whose L-shape hold counter is
7 leaves that counter at 7 — the transition does not reset both hold
counters. -/
theorem c1_counterexample :
    (processHand 5000 0 .OPEN_PALM { idleState with lShapeHold := 7 }).mode
        = .SCATTER ∧
    (processHand 5000 0 .OPEN_PALM { idleState with lShapeHold := 7 }).lShapeHold
        ≠ 0 := by
  decide

/-- C2 (amended): a frame whose detected hand classifies as NONE resets
both hold counters and the hold bar; a frame with no detected hand resets
only the hold bar and leaves both hold counters unchanged. -/
theorem c2_none_frame (now r : ℕ) (s : AppState)
    (h1 : s.captureState = .IDLE) (h2 : 2000 ≤ now - s.lastCaptureTime) :
    ((processHand now r .NONE s).lShapeHold = 0 ∧
      (processHand now r .NONE s).pinchHold = 0 ∧
      (processHand now r .NONE s).holdBarPct = 0) ∧
    ((processFrame now r none s).lShapeHold = s.lShapeHold ∧
      (processFrame now r none s).pinchHold = s.pinchHold ∧
      (processFrame now r none s).holdBarPct = 0) := by
  have hg : ¬ (s.captureState ≠ CaptureState.IDLE ∨ now - s.lastCaptureTime < 2000) := by
    push_neg
    exact ⟨by simp [h1], by omega⟩
  refine ⟨⟨rfl, rfl, rfl⟩, ?_⟩
  unfold processFrame
  rw [if_neg hg]
  exact ⟨rfl, rfl, rfl⟩

/-- C2 (witness): the amended theorem applied at a concrete quiescent
state 5000 ms after the last capture. -/
theorem c2_none_frame_witness :
    ((processHand 5000 0 .NONE { idleState with pinchHold := 5, lShapeHold := 4 }).lShapeHold = 0 ∧
      (processHand 5000 0 .NONE { idleState with pinchHold := 5, lShapeHold := 4 }).pinchHold = 0 ∧
      (processHand 5000 0 .NONE { idleState with pinchHold := 5, lShapeHold := 4 }).holdBarPct = 0) ∧
    ((processFrame 5000 0 none { idleState with pinchHold := 5, lShapeHold := 4 }).lShapeHold
        = ({ idleState with pinchHold := 5, lShapeHold := 4 } : AppState).lShapeHold ∧
      (processFrame 5000 0 none { idleState with pinchHold := 5, lShapeHold := 4 }).pinchHold
        = ({ idleState with pinchHold := 5, lShapeHold := 4 } : AppState).pinchHold ∧
      (processFrame 5000 0 none { idleState with pinchHold := 5, lShapeHold := 4 }).holdBarPct = 0) :=
  c2_none_frame 5000 0 _ rfl (by decide)

/-- C2 (counterexample to the claim as stated): a frame with no hand
detected — which the source also reports as gesture NONE — does not reset
the hold counters: from accumulated holds 5 and 4 they stay 5 and 4. -/
theorem c2_counterexample :
    (processFrame 5000 0 none { idleState with pinchHold := 5, lShapeHold := 4 }).pinchHold ≠ 0 ∧
    (processFrame 5000 0 none { idleState with pinchHold := 5, lShapeHold := 4 }).lShapeHold ≠ 0 ∧
    (processFrame 5000 0 none { idleState with pinchHold := 5, lShapeHold := 4 }).holdBarPct = 0 := by
  decide

/-- C3: a capture trigger within 4000 ms of the last capture is rejected
(the state is returned unchanged, so an IDLE state remains IDLE and
COUNTDOWN is not entered), and a trigger is likewise rejected whenever the
Capture State is not IDLE. -/
theorem c3_trigger_cooldown (now : ℕ) (s : AppState) :
    (now - s.lastCaptureTime < 4000 → triggerCountdown now s = s) ∧
    (s.captureState ≠ .IDLE → triggerCountdown now s = s) := by
  constructor
  · intro h
    unfold triggerCountdown
    by_cases h1 : s.captureState ≠ .IDLE
    · rw [if_pos h1]
    · rw [if_neg h1, if_pos h]
  · intro h
    unfold triggerCountdown
    rw [if_pos h]

/-- C3 (witness): a trigger 1000 ms after the last capture is rejected. -/
theorem c3_trigger_cooldown_witness :
    triggerCountdown 1000 { idleState with lastCaptureTime := 0 } =
      { idleState with lastCaptureTime := 0 } :=
  (c3_trigger_cooldown 1000 _).1 (by decide)

/-! ## Claims about the capture pipeline and timeline -/

/-- C6 (amended): the capture pipeline silently no-ops when the scene
group, the camera or the video element reference is missing. -/
theorem c6_missing_refs_noop (env : CaptureEnv) (s : AppState)
    (h : env.mainGroup = none ∨ env.camera = none ∨ env.video = none) :
    takePhoto env s = s := by
  obtain ⟨mg, cam, vid⟩ := env
  rcases h with h | h | h <;> dsimp only at h <;> subst h
  · rfl
  · cases mg <;> rfl
  · cases mg <;> cases cam <;> rfl

/-- C6 (witness): the amended theorem at an environment with no scene
group. -/
theorem c6_missing_refs_noop_witness :
    takePhoto ⟨none, some (), some ⟨4⟩⟩ idleState = idleState :=
  c6_missing_refs_noop _ _ (Or.inl rfl)

/-- C6 (counterexample to the claim as stated): when the video element
exists but no camera frame is ready (`readyState = 1 < 2`), `takePhoto`
does not no-op — it still appends a photo particle (whose polaroid never
received the video image). -/
theorem c6_counterexample :
    (1 : ℕ) < 2 ∧
    (takePhoto ⟨some (), some (), some ⟨1⟩⟩ idleState).particles
        ≠ idleState.particles ∧
    (takePhoto ⟨some (), some (), some ⟨1⟩⟩ idleState).particles.length
        = idleState.particles.length + 1 := by
  decide

/-- C7: with the source's timings, the capture reaches FLASH at the moment
the photo is taken, DEVELOPING 150 ms later, FLYING at 4500 ms and IDLE at
5500 ms, and the state as a function of elapsed time is exactly the
strictly linear passage FLASH → DEVELOPING → FLYING → IDLE through those
boundaries. -/
theorem c7_capture_timeline :
    captureStateAt 0 = .FLASH ∧ captureStateAt 150 = .DEVELOPING ∧
    captureStateAt 4500 = .FLYING ∧ captureStateAt 5500 = .IDLE ∧
    ∀ t : ℕ, captureStateAt t =
      if t < 150 then .FLASH else if t < 4500 then .DEVELOPING
      else if t < 5500 then .FLYING else .IDLE := by
  refine ⟨by decide, by decide, by decide, by decide, ?_⟩
  intro t
  by_cases h1 : t < 150
  · have e1 : ¬ (150 ≤ t) := by omega
    have e2 : ¬ (4500 ≤ t) := by omega
    have e3 : ¬ (4500 + 1000 ≤ t) := by omega
    simp [captureStateAt, captureTimers, List.filter, e1, e2, e3, h1]
  · by_cases h2 : t < 4500
    · have e1 : 150 ≤ t := by omega
      have e2 : ¬ (4500 ≤ t) := by omega
      have e3 : ¬ (4500 + 1000 ≤ t) := by omega
      simp [captureStateAt, captureTimers, List.filter, e1, e2, e3, h1, h2]
    · by_cases h3 : t < 5500
      · have e1 : 150 ≤ t := by omega
        have e2 : 4500 ≤ t := by omega
        have e3 : ¬ (4500 + 1000 ≤ t) := by omega
        simp [captureStateAt, captureTimers, List.filter, e1, e2, e3, h1, h2, h3]
      · have e1 : 150 ≤ t := by omega
        have e2 : 4500 ≤ t := by omega
        have e3 : 4500 + 1000 ≤ t := by omega
        simp [captureStateAt, captureTimers, List.filter, e1, e2, e3, h1, h2, h3]

/-- Helper: `triggerCountdown` never touches the zoomed-photo lock. -/
theorem triggerCountdown_zoomedPhoto (now : ℕ) (s : AppState) :
    (triggerCountdown now s).zoomedPhoto = s.zoomedPhoto := by
  unfold triggerCountdown
  by_cases h1 : s.captureState ≠ .IDLE
  · rw [if_pos h1]
  · rw [if_neg h1]
    by_cases h2 : now - s.lastCaptureTime < 4000
    · rw [if_pos h2]
    · rw [if_neg h2]

/-- C9: once the zoomed-photo lock holds some photo, PINCH frames, L_SHAPE
frames, NONE frames, frames with no detected hand, and the capture
pipeline all leave the lock exactly as it was; only the three
mode-transition gestures clear it. -/
theorem c9_zoom_lock_stable (now r : ℕ) (s : AppState) (p : ℕ)
    (h : s.zoomedPhoto = some p) (env : CaptureEnv) :
    (processHand now r .PINCH s).zoomedPhoto = some p ∧
    (processHand now r .L_SHAPE s).zoomedPhoto = some p ∧
    (processHand now r .NONE s).zoomedPhoto = some p ∧
    (processFrame now r none s).zoomedPhoto = some p ∧
    (takePhoto env s).zoomedPhoto = some p := by
  refine ⟨?_, ?_, ?_, ?_, ?_⟩
  · unfold processHand
    rw [if_neg (by decide), if_neg (by decide), if_neg (by decide),
      if_pos rfl]
    rw [if_neg ?_]
    · exact h
    · rintro ⟨-, hz⟩
      have hz' : s.zoomedPhoto = none := hz
      rw [h] at hz'
      cases hz'
  · unfold processHand
    rw [if_neg (by decide), if_neg (by decide), if_neg (by decide),
      if_neg (by decide), if_pos rfl]
    dsimp only
    by_cases h30 : 30 < s.lShapeHold + 1
    · rw [if_pos h30, triggerCountdown_zoomedPhoto]
      exact h
    · rw [if_neg h30]
      exact h
  · unfold processHand
    rw [if_neg (by decide), if_neg (by decide), if_neg (by decide),
      if_neg (by decide), if_neg (by decide)]
    exact h
  · unfold processFrame
    by_cases hg : s.captureState ≠ CaptureState.IDLE ∨ now - s.lastCaptureTime < 2000
    · rw [if_pos hg]; exact h
    · rw [if_neg hg]; exact h
  · obtain ⟨mg, cam, vid⟩ := env
    cases mg <;> cases cam <;> cases vid <;> exact h

/-- A state with one photo particle locked in zoom. -/
def zoomedState : AppState :=
  { idleState with zoomedPhoto := some 0, particles := [⟨.PHOTO, true, true⟩] }

/-- C9 (witness): with photo particle 0 zoomed, a PINCH frame, an L_SHAPE
frame, a NONE frame, a no-hand frame and a capture all keep the lock. -/
theorem c9_zoom_lock_stable_witness :
    (processHand 5000 3 .PINCH zoomedState).zoomedPhoto = some 0 ∧
    (processHand 5000 3 .L_SHAPE zoomedState).zoomedPhoto = some 0 ∧
    (processHand 5000 3 .NONE zoomedState).zoomedPhoto = some 0 ∧
    (processFrame 5000 3 none zoomedState).zoomedPhoto = some 0 ∧
    (takePhoto ⟨some (), some (), some ⟨4⟩⟩ zoomedState).zoomedPhoto = some 0 :=
  c9_zoom_lock_stable 5000 3 _ 0 rfl _

/-! ## Claims about the Gesture Classifier -/

/-- A concrete hand: fingers curled, thumb extended and pointing up —
satisfies both the THUMBS_UP and the FIST rule conditions. -/
def lmThumbs : Landmarks :=
  { wrist := ⟨1/2, 9/10⟩, thumbMCP := ⟨1/2, 3/5⟩, thumbIP := ⟨1/2, 1/2⟩,
    thumbTip := ⟨1/2, 3/10⟩, indexMCP := ⟨1/2, 3/5⟩, indexTip := ⟨1/2, 7/10⟩,
    middleMCP := ⟨1/2, 3/5⟩, middleTip := ⟨1/2, 7/10⟩, ringMCP := ⟨1/2, 3/5⟩,
    ringTip := ⟨1/2, 7/10⟩, pinkyMCP := ⟨1/2, 3/5⟩, pinkyTip := ⟨1/2, 7/10⟩ }

/-- A concrete hand: fingers curled, thumb extended (1.2x rule), thumb tip
above both its IP and MCP joints, but IP below MCP — the claim's reading
of the thumbs-up test holds while the source's chained test fails. -/
def lmC5 : Landmarks :=
  { wrist := ⟨1/2, 9/10⟩, thumbMCP := ⟨1/2, 3/5⟩, thumbIP := ⟨1/2, 4/5⟩,
    thumbTip := ⟨1/2, 3/10⟩, indexMCP := ⟨1/2, 3/5⟩, indexTip := ⟨1/2, 7/10⟩,
    middleMCP := ⟨1/2, 3/5⟩, middleTip := ⟨1/2, 7/10⟩, ringMCP := ⟨1/2, 3/5⟩,
    ringTip := ⟨1/2, 7/10⟩, pinkyMCP := ⟨1/2, 3/5⟩, pinkyTip := ⟨1/2, 7/10⟩ }

/-- C4: the classifier's priority order is absolute — for every pair of
rule conditions holding simultaneously, the class earlier in the order
PINCH, THUMBS_UP, FIST, OPEN_PALM, L_SHAPE is returned; in particular
input satisfying both the PINCH and FIST conditions yields PINCH. -/
theorem c4_priority_order (l : Landmarks) :
    (pinchCond l ∧ thumbsUpCond l → classifyGesture l = .PINCH) ∧
    (pinchCond l ∧ fistCond l → classifyGesture l = .PINCH) ∧
    (pinchCond l ∧ openPalmCond l → classifyGesture l = .PINCH) ∧
    (pinchCond l ∧ lShapeCond l → classifyGesture l = .PINCH) ∧
    (thumbsUpCond l ∧ fistCond l → classifyGesture l = .THUMBS_UP) ∧
    (thumbsUpCond l ∧ openPalmCond l → classifyGesture l = .THUMBS_UP) ∧
    (thumbsUpCond l ∧ lShapeCond l → classifyGesture l = .THUMBS_UP) ∧
    (fistCond l ∧ openPalmCond l → classifyGesture l = .FIST) ∧
    (fistCond l ∧ lShapeCond l → classifyGesture l = .FIST) ∧
    (openPalmCond l ∧ lShapeCond l → classifyGesture l = .OPEN_PALM) := by
  refine ⟨?_, ?_, ?_, ?_, ?_, ?_, ?_, ?_, ?_, ?_⟩
  · rintro ⟨hp, -⟩; simp [classifyGesture, hp]
  · rintro ⟨hp, -⟩; simp [classifyGesture, hp]
  · rintro ⟨hp, -⟩; simp [classifyGesture, hp]
  · rintro ⟨hp, -⟩; simp [classifyGesture, hp]
  · rintro ⟨ht, -⟩
    have hp : ¬ pinchCond l := fun hpc => ht.1.2.1 hpc.2.1
    simp [classifyGesture, hp, ht]
  · rintro ⟨ht, ho⟩; exact absurd ho.1 ht.1.1
  · rintro ⟨ht, hl⟩; exact absurd hl.2.1 ht.1.1
  · rintro ⟨hf, ho⟩; exact absurd ho.1 hf.1
  · rintro ⟨hf, hl⟩; exact absurd hl.2.1 hf.1
  · rintro ⟨ho, hl⟩; exact absurd ho.2.2.2 hl.2.2

/-- Shared evaluation: the curled-finger test on the concrete finger
coordinates used by `lmThumbs` and `lmC5`. -/
theorem curled_finger_eval :
    ¬ isEx ⟨1/2, 9/10⟩ ⟨1/2, 7/10⟩ ⟨1/2, 3/5⟩ := by
  unfold isEx
  rw [hypot_gt_mul_iff _ _ _ _ _ (by norm_num)]
  norm_num

theorem lmThumbs_fistCond : fistCond lmThumbs :=
  ⟨curled_finger_eval, curled_finger_eval, curled_finger_eval,
    curled_finger_eval⟩

theorem lmThumbs_tE : tE lmThumbs := by
  unfold tE
  rw [hypot_gt_mul_iff _ _ _ _ _ (by norm_num)]
  norm_num [lmThumbs]

theorem lmThumbs_thumbsUpCond : thumbsUpCond lmThumbs :=
  ⟨lmThumbs_fistCond, lmThumbs_tE, by norm_num [lmThumbs, thumbPointingUp]⟩

/-- C4 (witness): a hand satisfying both the THUMBS_UP and the FIST
conditions classifies as THUMBS_UP (the earlier class). -/
theorem c4_priority_order_witness :
    thumbsUpCond lmThumbs ∧ fistCond lmThumbs ∧
      classifyGesture lmThumbs = .THUMBS_UP :=
  ⟨lmThumbs_thumbsUpCond, lmThumbs_fistCond,
    (c4_priority_order lmThumbs).2.2.2.2.1
      ⟨lmThumbs_thumbsUpCond, lmThumbs_fistCond⟩⟩

/-- C5 (amended): the classifier returns THUMBS_UP exactly when PINCH does
not match first, the thumb is extended under the 1.2x rule, all four
fingers are curled, and the thumb's vertical coordinates form the chain
tip < IP < MCP (tip above IP and IP above MCP) — not merely tip above
both joints. -/
theorem c5_thumbs_up_characterization (l : Landmarks) :
    classifyGesture l = .THUMBS_UP ↔
      ¬ pinchCond l ∧ fingersCurled l ∧ tE l ∧
        l.thumbTip.y < l.thumbIP.y ∧ l.thumbIP.y < l.thumbMCP.y := by
  unfold classifyGesture
  by_cases h1 : pinchCond l
  · simp [h1]
  · by_cases h2 : thumbsUpCond l
    · have hc := h2.1
      have ht := h2.2.1
      have hu1 : l.thumbTip.y < l.thumbIP.y := h2.2.2.1
      have hu2 : l.thumbIP.y < l.thumbMCP.y := h2.2.2.2
      simp [h1, h2, hc, ht, hu1, hu2]
    · rw [if_neg h1, if_neg h2]
      constructor
      · intro hEq
        exfalso
        split_ifs at hEq
      · rintro ⟨-, hc, ht, hu1, hu2⟩
        exact absurd ⟨hc, ht, hu1, hu2⟩ h2

/-- C5 (counterexample to the claim as stated): a hand whose thumb tip is
above both its IP and MCP joints, thumb extended (1.2x rule), fingers
curled, PINCH not matching — yet classified FIST, because the source also
requires the IP joint to be above the MCP joint. -/
theorem c5_counterexample :
    tE lmC5 ∧ fingersCurled lmC5 ∧ ¬ pinchCond lmC5 ∧
    lmC5.thumbTip.y < lmC5.thumbIP.y ∧ lmC5.thumbTip.y < lmC5.thumbMCP.y ∧
    classifyGesture lmC5 = .FIST := by
  have hfist : fistCond lmC5 :=
    ⟨curled_finger_eval, curled_finger_eval, curled_finger_eval,
      curled_finger_eval⟩
  have hT : tE lmC5 := by
    unfold tE
    rw [hypot_gt_mul_iff _ _ _ _ _ (by norm_num)]
    norm_num [lmC5]
  have hnp : ¬ pinchCond lmC5 := fun hp => hfist.2.1 hp.2.1
  have hntu : ¬ thumbsUpCond lmC5 := by
    rintro ⟨-, -, -, hup2⟩
    norm_num [lmC5] at hup2
  refine ⟨hT, hfist, hnp, by norm_num [lmC5], by norm_num [lmC5], ?_⟩
  unfold classifyGesture
  rw [if_neg hnp, if_neg hntu, if_pos hfist]

/-- C5 (witness): the amended characterization evaluated at the concrete
thumbs-up hand. -/
theorem c5_thumbs_up_characterization_witness :
    classifyGesture lmThumbs = .THUMBS_UP ↔
      ¬ pinchCond lmThumbs ∧ fingersCurled lmThumbs ∧ tE lmThumbs ∧
        lmThumbs.thumbTip.y < lmThumbs.thumbIP.y ∧
        lmThumbs.thumbIP.y < lmThumbs.thumbMCP.y :=
  c5_thumbs_up_characterization lmThumbs

/-! ## Claims about the Formation Generator -/

set_option maxHeartbeats 1000000 in
/-- C8 (amended): a scene-construction ornament tree target has height in
[-H/2, H/2] and each horizontal coordinate separately bounded in absolute
value by the cone's radius profile at that height (since x and z use
independent azimuths and radial fractions, only the per-axis bound holds,
and the full horizontal distance can reach that profile times the square
root of two); the photo tree target uses a single azimuth, and its
horizontal distance from the axis is bounded by 1.1 times the profile
plus 1 — it can exceed the profile itself. -/
theorem c8_tree_target_bounds (r a1 r1 a2 r2 u1 u2 u3 : ℝ)
    (hr0 : 0 ≤ r) (hr1 : r ≤ 1) (h10 : 0 ≤ r1) (h11 : r1 ≤ 1)
    (h20 : 0 ≤ r2) (h21 : r2 ≤ 1) (hu10 : 0 ≤ u1) (hu11 : u1 ≤ 1)
    (hu20 : 0 ≤ u2) (hu21 : u2 ≤ 1) :
    (-(TREE_HEIGHT / 2) ≤ (treeTargetOrnament r a1 r1 a2 r2).y ∧
      (treeTargetOrnament r a1 r1 a2 r2).y ≤ TREE_HEIGHT / 2 ∧
      |(treeTargetOrnament r a1 r1 a2 r2).x| ≤
        radiusProfile (treeTargetOrnament r a1 r1 a2 r2).y ∧
      |(treeTargetOrnament r a1 r1 a2 r2).z| ≤
        radiusProfile (treeTargetOrnament r a1 r1 a2 r2).y) ∧
    (Real.sqrt ((treeTargetPhoto u1 u2 u3).x ^ 2 + (treeTargetPhoto u1 u2 u3).z ^ 2)
      ≤ 1.1 * radiusProfile (treeTargetPhoto u1 u2 u3).y + 1) := by
  constructor
  · have hN0 : 0 ≤ r ^ (0.9 : ℝ) := Real.rpow_nonneg hr0 _
    have hN1 : r ^ (0.9 : ℝ) ≤ 1 := Real.rpow_le_one hr0 hr1 (by norm_num)
    unfold treeTargetOrnament radiusProfile TREE_HEIGHT TREE_BASE_RADIUS
    dsimp only
    set hN := r ^ (0.9 : ℝ) with hNdef
    have hmr : (0 : ℝ) ≤ 22 * (1 - (hN * 55 - 55 / 2 + 55 / 2) / 55) := by
      have : (hN * 55 - 55 / 2 + 55 / 2) / 55 = hN := by ring
      rw [this]
      nlinarith
    refine ⟨by nlinarith, by nlinarith, ?_, ?_⟩
    · have hc : |Real.cos (a1 * 6.28)| ≤ 1 := Real.abs_cos_le_one _
      have hs1 : Real.sqrt r1 ≤ 1 := Real.sqrt_le_one.mpr h11
      have hs0 : 0 ≤ Real.sqrt r1 := Real.sqrt_nonneg _
      rw [abs_mul, abs_mul, abs_of_nonneg hmr,
        abs_of_nonneg (by linarith : (0 : ℝ) ≤ 0.2 + 0.8 * Real.sqrt r1)]
      have heq : (hN * 55 - 55 / 2 + 55 / 2) / 55 = hN := by ring
      rw [heq] at hmr ⊢
      have hcs : |Real.cos (a1 * 6.28)| * (22 * (1 - hN)) ≤ 22 * (1 - hN) :=
        mul_le_of_le_one_left hmr hc
      have hf1 : 0.2 + 0.8 * Real.sqrt r1 ≤ 1 := by linarith
      have hf0 : (0 : ℝ) ≤ 0.2 + 0.8 * Real.sqrt r1 := by linarith
      have hstep := mul_le_mul hcs hf1 hf0 hmr
      linarith [hstep]
    · have hc : |Real.sin (a2 * 6.28)| ≤ 1 := Real.abs_sin_le_one _
      have hs1 : Real.sqrt r2 ≤ 1 := Real.sqrt_le_one.mpr h21
      have hs0 : 0 ≤ Real.sqrt r2 := Real.sqrt_nonneg _
      rw [abs_mul, abs_mul, abs_of_nonneg hmr,
        abs_of_nonneg (by linarith : (0 : ℝ) ≤ 0.2 + 0.8 * Real.sqrt r2)]
      have heq : (hN * 55 - 55 / 2 + 55 / 2) / 55 = hN := by ring
      rw [heq] at hmr ⊢
      have hcs : |Real.sin (a2 * 6.28)| * (22 * (1 - hN)) ≤ 22 * (1 - hN) :=
        mul_le_of_le_one_left hmr hc
      have hf1 : 0.2 + 0.8 * Real.sqrt r2 ≤ 1 := by linarith
      have hf0 : (0 : ℝ) ≤ 0.2 + 0.8 * Real.sqrt r2 := by linarith
      have hstep := mul_le_mul hcs hf1 hf0 hmr
      linarith [hstep]
  · unfold treeTargetPhoto radiusProfile TREE_HEIGHT TREE_BASE_RADIUS
    dsimp only
    have hscs := Real.sin_sq_add_cos_sq (u3 * 6.28)
    have hmr : (0 : ℝ) ≤
        (1 - ((u1 * 0.9 - 0.45) * 55 + 55 / 2) / 55) * 22 := by linarith
    have hq2 : (0 : ℝ) ≤ 0.4 + u2 * 0.7 := by linarith
    have hq := mul_nonneg hmr hq2
    have hrad : (0 : ℝ) ≤
        (1 - ((u1 * 0.9 - 0.45) * 55 + 55 / 2) / 55) * 22 * (0.4 + u2 * 0.7) + 1.0 := by
      linarith [hq]
    have hsum : (Real.cos (u3 * 6.28) *
          ((1 - ((u1 * 0.9 - 0.45) * 55 + 55 / 2) / 55) * 22 * (0.4 + u2 * 0.7) + 1.0)) ^ 2 +
        (Real.sin (u3 * 6.28) *
          ((1 - ((u1 * 0.9 - 0.45) * 55 + 55 / 2) / 55) * 22 * (0.4 + u2 * 0.7) + 1.0)) ^ 2 =
        ((1 - ((u1 * 0.9 - 0.45) * 55 + 55 / 2) / 55) * 22 * (0.4 + u2 * 0.7) + 1.0) ^ 2 := by
      have hR := Real.sin_sq_add_cos_sq (u3 * 6.28)
      nlinarith [hR]
    rw [hsum, Real.sqrt_sq hrad]
    nlinarith [mul_nonneg hmr (by linarith : (0 : ℝ) ≤ 1 - u2)]

/-- C8 (witness): the amended bounds at the all-zero random draws. -/
theorem c8_tree_target_bounds_witness :
    (-(TREE_HEIGHT / 2) ≤ (treeTargetOrnament 0 0 0 0 0).y ∧
      (treeTargetOrnament 0 0 0 0 0).y ≤ TREE_HEIGHT / 2 ∧
      |(treeTargetOrnament 0 0 0 0 0).x| ≤
        radiusProfile (treeTargetOrnament 0 0 0 0 0).y ∧
      |(treeTargetOrnament 0 0 0 0 0).z| ≤
        radiusProfile (treeTargetOrnament 0 0 0 0 0).y) ∧
    (Real.sqrt ((treeTargetPhoto 0 0 0).x ^ 2 + (treeTargetPhoto 0 0 0).z ^ 2)
      ≤ 1.1 * radiusProfile (treeTargetPhoto 0 0 0).y + 1) :=
  c8_tree_target_bounds 0 0 0 0 0 0 0 0 (by norm_num) (by norm_num)
    (by norm_num) (by norm_num) (by norm_num) (by norm_num) (by norm_num)
    (by norm_num) (by norm_num) (by norm_num)

/-- C8 (counterexample to the claim as stated): a photo tree target drawn
with height random 1/2, radial random 1 and azimuth random 0 lies at
horizontal distance 13.1 from the axis while the cone's radius profile at
its height is 11 — the point is outside the cone. -/
theorem c8_counterexample :
    radiusProfile (treeTargetPhoto (1/2) 1 0).y <
      Real.sqrt ((treeTargetPhoto (1/2) 1 0).x ^ 2 + (treeTargetPhoto (1/2) 1 0).z ^ 2) := by
  have hpt : treeTargetPhoto (1/2) 1 0 = ⟨13.1, 0, 0⟩ := by
    unfold treeTargetPhoto TREE_HEIGHT TREE_BASE_RADIUS
    dsimp only
    rw [zero_mul, Real.cos_zero, Real.sin_zero]
    simp only [RVec3.mk.injEq]
    norm_num
  rw [hpt]
  unfold radiusProfile TREE_HEIGHT TREE_BASE_RADIUS
  dsimp only
  rw [show ((13.1 : ℝ) ^ 2 + 0 ^ 2) = 13.1 ^ 2 by norm_num,
    Real.sqrt_sq (by norm_num : (0:ℝ) ≤ 13.1)]
  norm_num

/-! ## Claims about text-glyph generation and allocation -/

theorem getVavePoints_length (count : ℕ) (validPixels : List Pixel)
    (pick : ℕ → ℕ) (depth : ℕ → ℚ) :
    (getVavePoints count validPixels pick depth).length = count := by
  unfold getVavePoints
  split
  · simp
  · simp

theorem listSwap_length (l : List Vec3) (i j : ℕ) :
    (listSwap l i j).length = l.length := by
  simp [listSwap]

theorem fisherYates_length (l : List Vec3) (jf : ℕ → ℕ) :
    (fisherYates l jf).length = l.length := by
  unfold fisherYates
  suffices h : ∀ (ks : List ℕ) (acc : List Vec3),
      (ks.foldl (fun acc k =>
        let i := l.length - 1 - k
        listSwap acc i (jf i % (i + 1))) acc).length = acc.length by
    exact h _ l
  intro ks
  induction ks with
  | nil => intro acc; rfl
  | cons k ks ih =>
    intro acc
    rw [List.foldl_cons, ih]
    exact listSwap_length _ _ _

theorem allocRun_spec (points : List Vec3) (n : ℕ) :
    ∀ idx : ℕ, idx + n ≤ points.length →
      allocRunHitsFallback points idx n = false ∧
      (allocRun points idx n).2 = idx + n ∧
      (allocRun points idx n).1 =
        (List.range n).map (fun i => points.getD (idx + i) default) := by
  induction n with
  | zero =>
    intro idx h
    exact ⟨rfl, rfl, rfl⟩
  | succ m ih =>
    intro idx h
    have hidx : idx < points.length := by omega
    have hnext : getNextTextPos points idx = (points.getD idx default, idx + 1) := by
      unfold getNextTextPos
      rw [if_pos hidx]
    have ihm := ih (idx + 1) (by omega)
    refine ⟨?_, ?_, ?_⟩
    · unfold allocRunHitsFallback
      rw [if_pos hidx]
      exact ihm.1
    · show (allocRun points idx (m + 1)).2 = idx + (m + 1)
      unfold allocRun
      rw [hnext]
      dsimp only
      rw [ihm.2.1]
      omega
    · show (allocRun points idx (m + 1)).1 = _
      unfold allocRun
      rw [hnext]
      dsimp only
      rw [ihm.2.2]
      rw [List.range_succ_eq_map, List.map_cons, List.map_map]
      congr 1
      refine List.map_congr_left ?_
      intro i _
      show points.getD (idx + 1 + i) default = points.getD (idx + (i + 1)) default
      congr 1
      omega

/-- C10: for the scene's 1351 initial particles (1 topper + 600 lights +
150 small stars + 600 ornaments), the shuffled text-glyph point list has
exactly 1351 entries, so the allocator's monotonically advancing index
stays in range for all 1351 construction-time calls: the degenerate
origin-returning branch of `getNextTextPos` is never taken, the final
index is 1351, and construction-order particle `i` receives entry `i` of
the shuffled list. -/
theorem c10_text_assignment (validPixels : List Pixel) (pick : ℕ → ℕ)
    (depth : ℕ → ℚ) (jf : ℕ → ℕ) :
    (fisherYates (getVavePoints totalParticles validPixels pick depth) jf).length
        = 1351 ∧
    totalParticles = 1351 ∧ initialCreations = 1351 ∧
    allocRunHitsFallback
        (fisherYates (getVavePoints totalParticles validPixels pick depth) jf)
        0 initialCreations = false ∧
    (allocRun (fisherYates (getVavePoints totalParticles validPixels pick depth) jf)
        0 initialCreations).2 = 1351 ∧
    (allocRun (fisherYates (getVavePoints totalParticles validPixels pick depth) jf)
        0 initialCreations).1 =
      (List.range 1351).map (fun i =>
        (fisherYates (getVavePoints totalParticles validPixels pick depth) jf).getD
          i default) := by
  have hlen : (fisherYates (getVavePoints totalParticles validPixels pick depth) jf).length
      = 1351 := by
    rw [fisherYates_length, getVavePoints_length]
    rfl
  have hic : initialCreations = 1351 := rfl
  have htp : totalParticles = 1351 := rfl
  have hspec := allocRun_spec
    (fisherYates (getVavePoints totalParticles validPixels pick depth) jf)
    initialCreations 0 (by rw [hlen, Nat.zero_add, hic])
  refine ⟨hlen, htp, hic, hspec.1, ?_, ?_⟩
  · rw [hspec.2.1, Nat.zero_add, hic]
  · rw [hspec.2.2, hic]
    refine List.map_congr_left ?_
    intro i _
    rw [Nat.zero_add]
